import Mathlib

/-!
Shallow embedding of the task-execution core of scriptworker
(scriptworker/task.py) together with theorems about its behaviour.

Conventions used throughout:
* time is a natural-number tick count; an asyncio sleep of one second
  advances the clock by one;
* a child process is described by the time at which it is gone
  (its `dieTime`): the process is alive at tick t exactly when t < dieTime;
* `os.kill` on a process that is gone raises ProcessLookupError, which is
  how the source's own comment describes the expected exit of the
  escalation loop;
* the remote queue is an environment mapping a request index to the
  response the queue gives for that request.
-/

namespace Scriptworker

/-- The three signals used by the escalation loop in max_timeout. -/
inductive Sig where
  | SIGINT
  | SIGTERM
  | SIGKILL
deriving DecidableEq

/-- The exception classes named in the escalation loop's except clause:
except (AttributeError, OSError, ProcessLookupError). -/
inductive PyExc where
  | attributeError
  | osError
  | processLookup
deriving DecidableEq

/-- Whether max_timeout's except clause catches a given exception; the
source lists AttributeError, OSError and ProcessLookupError. -/
def caughtByExcept : PyExc → Bool
  | PyExc.attributeError => true
  | PyExc.osError => true
  | PyExc.processLookup => true

/-- How a Python coroutine finishes: normally, or with an uncaught
exception. -/
inductive PyResult where
  | ok
  | raised (e : PyExc)
deriving DecidableEq

/-- Observable events of the watchdog: a successful os.kill delivering a
signal to a target (the negated pid addresses the process group), and a
successful zero-signal existence probe os.kill(pid, 0). -/
inductive KEvent where
  | kill (time : Nat) (target : Int) (sig : Sig)
  | probe (time : Nat)
deriving DecidableEq

/-- The initial escalation list of max_timeout:
siglist = [signal.SIGINT, signal.SIGTERM]. -/
def initialSiglist : List Sig := [Sig.SIGINT, Sig.SIGTERM]

/-- Result of running the try-block of max_timeout: the events produced,
the exception (if any) that ended the while-True loop, and the tick at
which control leaves the block. -/
structure TryResult where
  events : List KEvent
  exc : Option PyExc
  endTime : Nat
deriving DecidableEq

/-- The body of max_timeout's try-block, started at tick t against a
process that is gone from tick dieTime on.  Each loop iteration pops the
siglist (defaulting to SIGKILL), kills the process group and the leader,
sleeps one second, and probes with signal 0; any kill or probe against a
process that is already gone raises ProcessLookupError.  Mirrors
task.py lines 193-204. -/
def escalateTry (pid d : Nat) (sl : List Sig) (t : Nat) : TryResult :=
  if _h1 : d ≤ t then
    { events := [], exc := some PyExc.processLookup, endTime := t }
  else
    let sig := sl.headD Sig.SIGKILL
    let evs := [KEvent.kill t (-(pid : Int)) sig, KEvent.kill t (pid : Int) sig]
    if _h2 : d ≤ t + 1 then
      { events := evs, exc := some PyExc.processLookup, endTime := t + 1 }
    else
      let r := escalateTry pid d sl.tail (t + 1)
      { events := evs ++ KEvent.probe (t + 1) :: r.events, exc := r.exc,
        endTime := r.endTime }
termination_by d - t
decreasing_by omega

/-- Outcome of one call to max_timeout after its sleep has ended. -/
structure WatchdogRun where
  events : List KEvent
  result : PyResult
  endTime : Nat
deriving DecidableEq

/-- max_timeout after its sleep(timeout) has ended at tick t0: captured is
the proc argument's handle, current is context.proc at that moment.  If
the handles differ the function returns at once (task.py lines 191-192);
otherwise it runs the escalation try-block and the except clause swallows
the listed exceptions (lines 193-207). -/
def max_timeout (captured : Nat) (current : Option Nat) (dieTime t0 : Nat) :
    WatchdogRun :=
  if current = some captured then
    let r := escalateTry captured dieTime initialSiglist t0
    { events := r.events,
      result :=
        match r.exc with
        | none => PyResult.ok
        | some e => if caughtByExcept e then PyResult.ok else PyResult.raised e,
      endTime := r.endTime }
  else
    { events := [], result := PyResult.ok, endTime := t0 }

/-- The signal the spec requires on the i-th escalation attempt:
SIGINT first, SIGTERM second, SIGKILL from then on. -/
def sigAt : Nat → Sig
  | 0 => Sig.SIGINT
  | 1 => Sig.SIGTERM
  | _ => Sig.SIGKILL

/-- The escalation trace the spec's words demand against a process gone
from tick d on, with the watchdog starting its attempts at tick i: on each
attempt i, send sigAt i to the process group and to the leader, wait one
second, probe; the loop ends exactly when the probe (or the next kill)
finds the process gone. -/
def specEscalation (p d i : Nat) : List KEvent :=
  if _h1 : d ≤ i then []
  else
    [KEvent.kill i (-(p : Int)) (sigAt i), KEvent.kill i (p : Int) (sigAt i)]
      ++ if _h2 : i + 1 < d then KEvent.probe (i + 1) :: specEscalation p d (i + 1)
         else []
termination_by d - i
decreasing_by omega

lemma escalateTry_dead (pid d : Nat) (sl : List Sig) (t : Nat) (h : d ≤ t) :
    escalateTry pid d sl t =
      { events := [], exc := some PyExc.processLookup, endTime := t } := by
  rw [escalateTry.eq_def]
  simp only [dif_pos h]

lemma escalateTry_last (pid d : Nat) (sl : List Sig) (t : Nat)
    (h1 : ¬ d ≤ t) (h2 : d ≤ t + 1) :
    escalateTry pid d sl t =
      { events := [KEvent.kill t (-(pid : Int)) (sl.headD Sig.SIGKILL),
                   KEvent.kill t (pid : Int) (sl.headD Sig.SIGKILL)],
        exc := some PyExc.processLookup, endTime := t + 1 } := by
  rw [escalateTry.eq_def]
  simp only [dif_neg h1, dif_pos h2]

lemma escalateTry_step (pid d : Nat) (sl : List Sig) (t : Nat)
    (h1 : ¬ d ≤ t) (h2 : ¬ d ≤ t + 1) :
    escalateTry pid d sl t =
      { events := [KEvent.kill t (-(pid : Int)) (sl.headD Sig.SIGKILL),
                   KEvent.kill t (pid : Int) (sl.headD Sig.SIGKILL)]
          ++ KEvent.probe (t + 1) :: (escalateTry pid d sl.tail (t + 1)).events,
        exc := (escalateTry pid d sl.tail (t + 1)).exc,
        endTime := (escalateTry pid d sl.tail (t + 1)).endTime } := by
  conv_lhs => rw [escalateTry.eq_def]
  simp only [dif_neg h1, dif_neg h2]

lemma specEscalation_dead (p d i : Nat) (h : d ≤ i) : specEscalation p d i = [] := by
  rw [specEscalation.eq_def]
  simp only [dif_pos h]

lemma specEscalation_last (p d i : Nat) (h1 : ¬ d ≤ i) (h2 : ¬ i + 1 < d) :
    specEscalation p d i =
      [KEvent.kill i (-(p : Int)) (sigAt i), KEvent.kill i (p : Int) (sigAt i)] := by
  rw [specEscalation.eq_def]
  simp only [dif_neg h1, dif_neg h2, List.append_nil]

lemma specEscalation_step (p d i : Nat) (h1 : ¬ d ≤ i) (h2 : i + 1 < d) :
    specEscalation p d i =
      [KEvent.kill i (-(p : Int)) (sigAt i), KEvent.kill i (p : Int) (sigAt i)]
        ++ KEvent.probe (i + 1) :: specEscalation p d (i + 1) := by
  conv_lhs => rw [specEscalation.eq_def]
  simp only [dif_neg h1, dif_pos h2]

lemma headD_drop_sigAt (i : Nat) :
    (initialSiglist.drop i).headD Sig.SIGKILL = sigAt i := by
  match i with
  | 0 => rfl
  | 1 => rfl
  | n + 2 =>
    show (List.drop n ([] : List Sig)).headD Sig.SIGKILL = Sig.SIGKILL
    rw [List.drop_nil]
    rfl

lemma siglist_tail_drop (i : Nat) :
    (initialSiglist.drop i).tail = initialSiglist.drop (i + 1) := by
  match i with
  | 0 => rfl
  | 1 => rfl
  | n + 2 =>
    show (List.drop n ([] : List Sig)).tail = List.drop (n + 1) ([] : List Sig)
    rw [List.drop_nil, List.drop_nil]
    rfl

lemma escalateTry_eq_spec (p d : Nat) :
    ∀ n i, d ≤ i + n →
      escalateTry p d (initialSiglist.drop i) i =
        { events := specEscalation p d i, exc := some PyExc.processLookup,
          endTime := max i d } := by
  intro n
  induction n with
  | zero =>
    intro i hi
    have h : d ≤ i := by omega
    rw [escalateTry_dead p d _ i h, specEscalation_dead p d i h]
    have hm : max i d = i := by omega
    rw [hm]
  | succ n ih =>
    intro i hi
    by_cases h : d ≤ i
    · rw [escalateTry_dead p d _ i h, specEscalation_dead p d i h]
      have hm : max i d = i := by omega
      rw [hm]
    · by_cases h2 : d ≤ i + 1
      · rw [escalateTry_last p d _ i h h2,
          specEscalation_last p d i h (by omega), headD_drop_sigAt i]
        have hm : max i d = i + 1 := by omega
        rw [hm]
      · rw [escalateTry_step p d _ i h h2, siglist_tail_drop i,
          ih (i + 1) (by omega), specEscalation_step p d i h (by omega),
          headD_drop_sigAt i]
        have hm : max (i + 1) d = max i d := by omega
        rw [hm]

lemma escalateTry_endTime (p d : Nat) :
    ∀ n (sl : List Sig) (t : Nat), d ≤ t + n →
      (escalateTry p d sl t).endTime = max t d := by
  intro n
  induction n with
  | zero =>
    intro sl t hn
    rw [escalateTry_dead p d sl t (by omega)]
    dsimp only
    omega
  | succ n ih =>
    intro sl t hn
    by_cases h : d ≤ t
    · rw [escalateTry_dead p d sl t h]
      dsimp only
      omega
    · by_cases h2 : d ≤ t + 1
      · rw [escalateTry_last p d sl t h h2]
        dsimp only
        omega
      · rw [escalateTry_step p d sl t h h2]
        dsimp only
        rw [ih sl.tail (t + 1) (by omega)]
        omega

/-- Claim C2: once the timeout escalation is triggered for the process the
watchdog captured (the handle check passes), the attempt sequence is
exactly `specEscalation`: the i-th attempt, at tick i, sends `sigAt i`
(SIGINT on attempt 0, SIGTERM on attempt 1, SIGKILL on every later
attempt) to the process group and to the leader, waits one second, and
probes existence with signal 0; the loop stops at the first kill or probe
that finds the process gone (from tick d on), and max_timeout finishes
with `PyResult.ok` — the ProcessLookupError that ends the loop is caught
by the except clause, so the coroutine returns normally. -/
theorem max_timeout_escalation_policy (p d : Nat) :
    max_timeout p (some p) d 0 =
      { events := specEscalation p d 0, result := PyResult.ok, endTime := d } := by
  have h := escalateTry_eq_spec p d d 0 (by omega)
  rw [List.drop_zero] at h
  unfold max_timeout
  rw [if_pos rfl]
  rw [h]
  simp [caughtByExcept]

/-- Claim C7: if the context's current handle when the watchdog's sleep
ends differs from the handle captured at watchdog start, max_timeout
returns immediately: no kill, no probe, no time passes, no exception. -/
theorem max_timeout_handle_guard (captured : Nat) (current : Option Nat)
    (d t0 : Nat) (h : current ≠ some captured) :
    max_timeout captured current d t0 =
      { events := [], result := PyResult.ok, endTime := t0 } := by
  unfold max_timeout
  rw [if_neg h]

theorem max_timeout_handle_guard_witness :
    ((none : Option Nat) ≠ some 1) ∧
      max_timeout 1 none 5 3 =
        { events := [], result := PyResult.ok, endTime := 3 } :=
  ⟨by decide, max_timeout_handle_guard 1 none 5 3 (by decide)⟩

/-! The lease-renewal loop reclaim_task (task.py lines 66-88). -/

/-- What the queue answers to the n-th reclaimTask request: a fresh
result carrying new temp credentials, or a TaskclusterRestFailure with a
status code. -/
inductive ReclaimResult where
  | ok (credentials : Nat)
  | err (status : Nat)
deriving DecidableEq

/-- The slice of the job context reclaim_task touches. -/
structure ReclaimCtx where
  tempCredentials : Nat
  reclaimTaskResult : Option Nat
deriving DecidableEq

/-- Modelled from the spec: the Context class (scriptworker/context.py, not
under src/) receives the assignment context.reclaim_task = result at
task.py line 82; per the spec's LeaseKeeper contract this atomically
replaces the context's lease credentials with the fresh ones returned by
the queue. -/
def setReclaimTask (ctx : ReclaimCtx) (credentials : Nat) : ReclaimCtx :=
  { tempCredentials := credentials, reclaimTaskResult := some credentials }

/-- Observable events of the reclaim loop: the sleep that starts each
iteration, the renewal request it then issues, and the credential
replacement performed on a successful renewal. -/
inductive RcEvent where
  | sleep (interval : Nat)
  | renewCall (idx : Nat)
  | credUpdate (credentials : Nat)
deriving DecidableEq

/-- How the reclaim loop left off: still looping when the fuel ran out,
returned normally through the 409 break, or raised the rejection. -/
inductive RcOutcome where
  | fuelOut (ctx : ReclaimCtx)
  | returned (ctx : ReclaimCtx)
  | raised (status : Nat) (ctx : ReclaimCtx)
deriving DecidableEq

/-- reclaim_task's while-True loop, observed for `fuel` iterations, the
i-th iteration receiving the queue's answer env i.  Each iteration sleeps
reclaim_interval, issues the renewal, and on success stores the result on
the context (replacing the lease credentials) before looping; a 409
rejection breaks out of the loop, any other rejection re-raises.
Mirrors task.py lines 73-88. -/
def reclaim_task (env : Nat → ReclaimResult) (interval : Nat)
    (ctx : ReclaimCtx) (i fuel : Nat) : List RcEvent × RcOutcome :=
  match fuel with
  | 0 => ([], RcOutcome.fuelOut ctx)
  | fuel + 1 =>
    match env i with
    | ReclaimResult.ok credentials =>
      let r := reclaim_task env interval (setReclaimTask ctx credentials) (i + 1) fuel
      (RcEvent.sleep interval :: RcEvent.renewCall i ::
        RcEvent.credUpdate credentials :: r.1, r.2)
    | ReclaimResult.err s =>
      if s = 409 then
        ([RcEvent.sleep interval, RcEvent.renewCall i], RcOutcome.returned ctx)
      else
        ([RcEvent.sleep interval, RcEvent.renewCall i], RcOutcome.raised s ctx)

/-- The trace the spec's words demand when renewals i, i+1, ..., i+k-1
succeed and renewal i+k is rejected: every renewal request is preceded by
a sleep of the full reclaim interval, each success is followed by a
credential replacement, and nothing at all happens after request i+k. -/
def specReclaimTrace (interval : Nat) (creds : Nat → Nat) (i k : Nat) :
    List RcEvent :=
  match k with
  | 0 => [RcEvent.sleep interval, RcEvent.renewCall i]
  | k + 1 =>
    RcEvent.sleep interval :: RcEvent.renewCall i ::
      RcEvent.credUpdate (creds i) :: specReclaimTrace interval creds (i + 1) k

/-- The context after k successful renewals starting at request i. -/
def specFinalCtx (creds : Nat → Nat) (i k : Nat) (ctx : ReclaimCtx) : ReclaimCtx :=
  match k with
  | 0 => ctx
  | k + 1 => specFinalCtx creds (i + 1) k (setReclaimTask ctx (creds i))

lemma reclaim_task_spec (env : Nat → ReclaimResult) (interval s : Nat)
    (creds : Nat → Nat) :
    ∀ k i (ctx : ReclaimCtx) fuel,
      (∀ j, j < k → env (i + j) = ReclaimResult.ok (creds (i + j))) →
      env (i + k) = ReclaimResult.err s → k < fuel →
      reclaim_task env interval ctx i fuel =
        (specReclaimTrace interval creds i k,
         if s = 409 then RcOutcome.returned (specFinalCtx creds i k ctx)
         else RcOutcome.raised s (specFinalCtx creds i k ctx)) := by
  intro k
  induction k with
  | zero =>
    intro i ctx fuel hok herr hfuel
    match fuel, hfuel with
    | fuel + 1, _ =>
      rw [Nat.add_zero] at herr
      by_cases h409 : s = 409
      · simp [reclaim_task, herr, h409, specReclaimTrace, specFinalCtx]
      · simp [reclaim_task, herr, h409, specReclaimTrace, specFinalCtx]
  | succ k ih =>
    intro i ctx fuel hok herr hfuel
    match fuel, hfuel with
    | fuel + 1, _ =>
      have hi : env i = ReclaimResult.ok (creds i) := by
        have h := hok 0 (by omega)
        rwa [Nat.add_zero] at h
      have hok' : ∀ j, j < k → env (i + 1 + j) = ReclaimResult.ok (creds (i + 1 + j)) := by
        intro j hj
        have h := hok (j + 1) (by omega)
        rwa [show i + (j + 1) = i + 1 + j by omega] at h
      have herr' : env (i + 1 + k) = ReclaimResult.err s := by
        rwa [show i + 1 + k = i + (k + 1) by omega]
      have hrec := ih (i + 1) (setReclaimTask ctx (creds i)) fuel hok' herr' (by omega)
      simp [reclaim_task, hi, hrec, specReclaimTrace, specFinalCtx]

/-- Claim C4: starting from request 0, if the first k renewals succeed and
renewal k is rejected with status s, then — for every observation length
fuel > k, so in particular however much longer the loop could have run —
reclaim_task produces exactly the trace specReclaimTrace: a sleep of
reclaim_interval before every renewal request (one request per interval,
strictly sequentially), no event whatsoever after request k, and it ends
with a plain normal return when s = 409 and with the rejection re-raised
(never retried) for every other status. -/
theorem reclaim_task_stop_behavior (env : Nat → ReclaimResult)
    (interval s fuel k : Nat) (creds : Nat → Nat) (ctx : ReclaimCtx)
    (hok : ∀ j, j < k → env j = ReclaimResult.ok (creds j))
    (herr : env k = ReclaimResult.err s) (hfuel : k < fuel) :
    reclaim_task env interval ctx 0 fuel =
      (specReclaimTrace interval creds 0 k,
       if s = 409 then RcOutcome.returned (specFinalCtx creds 0 k ctx)
       else RcOutcome.raised s (specFinalCtx creds 0 k ctx)) := by
  refine reclaim_task_spec env interval s creds k 0 ctx fuel ?_ ?_ hfuel
  · intro j hj
    rw [Nat.zero_add]
    exact hok j hj
  · rw [Nat.zero_add]
    exact herr

def envW4 : Nat → ReclaimResult := fun j =>
  if j < 2 then ReclaimResult.ok (10 + j) else ReclaimResult.err 409

def credsW4 : Nat → Nat := fun j => 10 + j

theorem reclaim_task_stop_behavior_witness :
    (∀ j, j < 2 → envW4 j = ReclaimResult.ok (credsW4 j)) ∧
      reclaim_task envW4 30 { tempCredentials := 0, reclaimTaskResult := none } 0 5 =
        (specReclaimTrace 30 credsW4 0 2,
         if (409 : Nat) = 409 then
           RcOutcome.returned
             (specFinalCtx credsW4 0 2 { tempCredentials := 0, reclaimTaskResult := none })
         else
           RcOutcome.raised 409
             (specFinalCtx credsW4 0 2 { tempCredentials := 0, reclaimTaskResult := none })) :=
  ⟨by decide,
   reclaim_task_stop_behavior envW4 30 409 5 2 credsW4
     { tempCredentials := 0, reclaimTaskResult := none }
     (by decide) (by decide) (by decide)⟩

/-- The credentials appearing in a credential-replacement event. -/
def credUpdatesOf (evs : List RcEvent) : List Nat :=
  evs.filterMap fun e =>
    match e with
    | RcEvent.credUpdate c => some c
    | _ => none

/-- The fresh credentials of the successive successful renewals starting
at request i, up to the first rejection or the end of the observation. -/
def okCredsList (env : Nat → ReclaimResult) (i fuel : Nat) : List Nat :=
  match fuel with
  | 0 => []
  | fuel + 1 =>
    match env i with
    | ReclaimResult.ok c => c :: okCredsList env (i + 1) fuel
    | ReclaimResult.err _ => []

/-- The context carried by a loop outcome. -/
def ctxOf : RcOutcome → ReclaimCtx
  | RcOutcome.fuelOut c => c
  | RcOutcome.returned c => c
  | RcOutcome.raised _ c => c

/-- Claim C9: over any observation of the reclaim loop, the credential
replacements it performs are exactly one per successful renewal, carrying
precisely the fresh credentials the queue returned (okCredsList), and the
final context is the initial context with exactly those replacements
folded in — the loop makes no other modification to the context, and its
outcome carries no payload beyond the way it terminated.  The credential
mutation and the termination are the loop's only effects on the program;
no renewal result is ever returned to a caller. -/
theorem reclaim_task_observable_effects (env : Nat → ReclaimResult)
    (interval : Nat) :
    ∀ fuel i (ctx : ReclaimCtx),
      credUpdatesOf (reclaim_task env interval ctx i fuel).1 =
        okCredsList env i fuel ∧
      ctxOf (reclaim_task env interval ctx i fuel).2 =
        (okCredsList env i fuel).foldl setReclaimTask ctx := by
  intro fuel
  induction fuel with
  | zero =>
    intro i ctx
    exact ⟨rfl, rfl⟩
  | succ fuel ih =>
    intro i ctx
    cases hi : env i with
    | ok c =>
      have h := ih (i + 1) (setReclaimTask ctx c)
      constructor
      · simp [reclaim_task, hi, credUpdatesOf, okCredsList] at h ⊢
        exact h.1
      · simp [reclaim_task, hi, okCredsList]
        exact h.2
    | err s =>
      by_cases h409 : s = 409
      · simp [reclaim_task, hi, h409, credUpdatesOf, okCredsList, ctxOf]
      · simp [reclaim_task, hi, h409, credUpdatesOf, okCredsList, ctxOf]

/-! Completion reporting: complete_task (task.py lines 162-187). -/

/-- The two queue report operations complete_task can invoke. -/
inductive ReportCall where
  | completed
  | failed
deriving DecidableEq

/-- The queue's answer to a report call: success, or a
TaskclusterRestFailure carrying a status code. -/
inductive QueueResp where
  | ok
  | restFailure (status : Nat)
deriving DecidableEq

/-- What the queue would answer to each of the two possible report calls. -/
structure CompleteEnv where
  completedResp : QueueResp
  failedResp : QueueResp
deriving DecidableEq

/-- How complete_task finishes: normally, or re-raising a rest failure
with the given status. -/
inductive PyReportOutcome where
  | ok
  | raised (status : Nat)
deriving DecidableEq

/-- The queue response complete_task actually receives for a given exit
result: the response to reportCompleted when result = 0, to reportFailed
otherwise. -/
def chosenResp (env : CompleteEnv) (result : Int) : QueueResp :=
  if result = 0 then env.completedResp else env.failedResp

/-- complete_task: report the task completed when the exit result is 0 and
failed otherwise; a TaskclusterRestFailure with status 409 from either
call is swallowed, any other status re-raises.  Returns the list of
report calls issued and how the coroutine finished.  Mirrors task.py
lines 170-186. -/
def complete_task (env : CompleteEnv) (result : Int) :
    List ReportCall × PyReportOutcome :=
  let call := if result = 0 then ReportCall.completed else ReportCall.failed
  match chosenResp env result with
  | QueueResp.ok => ([call], PyReportOutcome.ok)
  | QueueResp.restFailure s =>
    if s = 409 then ([call], PyReportOutcome.ok)
    else ([call], PyReportOutcome.raised s)

/-- Claim C3: complete_task issues the report-success call exactly when
the exit result is 0 and the report-failure call for every non-zero
result (sign included, so also the negative signal sentinels); a 409
rejection of whichever call was made is swallowed and the coroutine
returns normally, a success response returns normally, and any rejection
with a status other than 409 propagates to the caller. -/
theorem complete_task_reporting (env : CompleteEnv) (result : Int) :
    ((complete_task env result).1 = [ReportCall.completed] ↔ result = 0) ∧
    ((complete_task env result).1 = [ReportCall.failed] ↔ result ≠ 0) ∧
    (chosenResp env result = QueueResp.ok →
      (complete_task env result).2 = PyReportOutcome.ok) ∧
    (chosenResp env result = QueueResp.restFailure 409 →
      (complete_task env result).2 = PyReportOutcome.ok) ∧
    (∀ s, chosenResp env result = QueueResp.restFailure s → s ≠ 409 →
      (complete_task env result).2 = PyReportOutcome.raised s) := by
  by_cases hz : result = 0
  · subst hz
    cases hresp : chosenResp env 0 with
    | ok => simp [complete_task, hresp]
    | restFailure s =>
      by_cases h409 : s = 409
      · simp [complete_task, hresp, h409]
      · simp [complete_task, hresp, h409]
  · cases hresp : chosenResp env result with
    | ok => simp [complete_task, hresp, hz]
    | restFailure s =>
      by_cases h409 : s = 409
      · simp [complete_task, hresp, hz, h409]
      · simp [complete_task, hresp, hz, h409]

theorem complete_task_reporting_witness :
    ((complete_task
        { completedResp := QueueResp.ok, failedResp := QueueResp.restFailure 500 }
        3).1 = [ReportCall.failed]) ∧
    ((complete_task
        { completedResp := QueueResp.ok, failedResp := QueueResp.restFailure 500 }
        3).2 = PyReportOutcome.raised 500) :=
  ⟨(complete_task_reporting
      { completedResp := QueueResp.ok, failedResp := QueueResp.restFailure 500 }
      3).2.1.mpr (by decide),
   (complete_task_reporting
      { completedResp := QueueResp.ok, failedResp := QueueResp.restFailure 500 }
      3).2.2.2.2 500 (by decide) (by decide)⟩

/-! The artifact upload pipeline: create_artifact (task.py lines 105-138),
retry_create_artifact (lines 141-147) and upload_artifacts (lines
150-159). -/

/-- How one upload attempt for a file ends: normally, raising the
retryable ScriptWorkerRetryException that carries the observed HTTP
status, or raising some other exception. -/
inductive ArtifactAttempt where
  | ok
  | retryExc (status : Nat)
  | otherExc (code : Nat)
deriving DecidableEq

/-- create_artifact's handling of the PUT response: a status of 200 or 204
returns normally, any other status raises ScriptWorkerRetryException
carrying that status.  Mirrors task.py lines 131-138; the queue call and
payload construction earlier in the function do not influence this
outcome. -/
def create_artifact (status : Nat) : ArtifactAttempt :=
  if status = 200 ∨ status = 204 then ArtifactAttempt.ok
  else ArtifactAttempt.retryExc status

/-- Modelled from the spec: retry_async (scriptworker/utils.py, not under
src/) re-runs the wrapped action when it raises one of the listed
retry_exceptions — here exactly ScriptWorkerRetryException — up to a
fixed attempt budget, then surfaces the last failure; any other exception
propagates at once.  The backoff sleeps do not affect the result and are
elided.  The action is indexed by the attempt number, and fuel counts the
retries still allowed after the current attempt. -/
def retry_async (action : Nat → ArtifactAttempt) (i fuel : Nat) : ArtifactAttempt :=
  match action i with
  | ArtifactAttempt.ok => ArtifactAttempt.ok
  | ArtifactAttempt.otherExc c => ArtifactAttempt.otherExc c
  | ArtifactAttempt.retryExc s =>
    match fuel with
    | 0 => ArtifactAttempt.retryExc s
    | fuel + 1 => retry_async action (i + 1) fuel

/-- retry_create_artifact: create_artifact wrapped in retry_async with
ScriptWorkerRetryException as the only retryable exception (task.py lines
141-147); sts gives the HTTP status of each attempt's byte transfer and
budget the total attempt budget. -/
def retry_create_artifact (budget : Nat) (sts : Nat → Nat) : ArtifactAttempt :=
  retry_async (fun i => create_artifact (sts i)) 0 (budget - 1)

lemma retry_async_create (sts : Nat → Nat) :
    ∀ fuel i,
      (retry_async (fun j => create_artifact (sts j)) i fuel = ArtifactAttempt.ok ↔
        ∃ j, j ≤ fuel ∧ (sts (i + j) = 200 ∨ sts (i + j) = 204)) ∧
      ((∀ j, j ≤ fuel → ¬(sts (i + j) = 200 ∨ sts (i + j) = 204)) →
        retry_async (fun j => create_artifact (sts j)) i fuel =
          ArtifactAttempt.retryExc (sts (i + fuel))) := by
  intro fuel
  induction fuel with
  | zero =>
    intro i
    by_cases hg : sts i = 200 ∨ sts i = 204
    · have hok : retry_async (fun j => create_artifact (sts j)) i 0 =
          ArtifactAttempt.ok := by
        simp only [retry_async, create_artifact, if_pos hg]
      constructor
      · rw [hok]
        exact iff_of_true rfl ⟨0, by omega, by simpa using hg⟩
      · intro hall
        exact absurd (by simpa using hg) (hall 0 (by omega))
    · have hbad : retry_async (fun j => create_artifact (sts j)) i 0 =
          ArtifactAttempt.retryExc (sts i) := by
        simp only [retry_async, create_artifact, if_neg hg]
      constructor
      · rw [hbad]
        constructor
        · intro h
          cases h
        · rintro ⟨j, hj, hgood⟩
          have hj0 : j = 0 := by omega
          rw [hj0] at hgood
          simp only [Nat.add_zero] at hgood
          exact absurd hgood hg
      · intro _
        rw [hbad, Nat.add_zero]
  | succ fuel ih =>
    intro i
    by_cases hg : sts i = 200 ∨ sts i = 204
    · have hok : retry_async (fun j => create_artifact (sts j)) i (fuel + 1) =
          ArtifactAttempt.ok := by
        conv_lhs => rw [retry_async.eq_def]
        simp only [create_artifact, if_pos hg]
      constructor
      · rw [hok]
        exact iff_of_true rfl ⟨0, by omega, by simpa using hg⟩
      · intro hall
        exact absurd (by simpa using hg) (hall 0 (by omega))
    · have hstep :
          retry_async (fun j => create_artifact (sts j)) i (fuel + 1) =
            retry_async (fun j => create_artifact (sts j)) (i + 1) fuel := by
        conv_lhs => rw [retry_async.eq_def]
        simp only [create_artifact, if_neg hg]
      constructor
      · rw [hstep, (ih (i + 1)).1]
        constructor
        · rintro ⟨j, hj, hgood⟩
          refine ⟨j + 1, by omega, ?_⟩
          rwa [show i + (j + 1) = i + 1 + j by omega]
        · rintro ⟨j, hj, hgood⟩
          match j, hgood with
          | 0, hgood => exact absurd (by simpa using hgood) hg
          | j + 1, hgood =>
            refine ⟨j, by omega, ?_⟩
            rwa [show i + 1 + j = i + (j + 1) by omega]
      · intro hall
        rw [hstep]
        have h := (ih (i + 1)).2 ?_
        · rwa [show i + 1 + fuel = i + (fuel + 1) by omega] at h
        · intro j hj
          have := hall (j + 1) (by omega)
          rwa [show i + (j + 1) = i + 1 + j by omega] at this

lemma retry_create_spec (budget : Nat) (sts : Nat → Nat) (hb : 1 ≤ budget) :
    (retry_create_artifact budget sts = ArtifactAttempt.ok ↔
      ∃ i, i < budget ∧ (sts i = 200 ∨ sts i = 204)) ∧
    ((∀ i, i < budget → ¬(sts i = 200 ∨ sts i = 204)) →
      retry_create_artifact budget sts =
        ArtifactAttempt.retryExc (sts (budget - 1))) := by
  have h := retry_async_create sts (budget - 1) 0
  constructor
  · rw [retry_create_artifact, h.1]
    constructor
    · rintro ⟨j, hj, hgood⟩
      exact ⟨j, by omega, by simpa using hgood⟩
    · rintro ⟨j, hj, hgood⟩
      exact ⟨j, by omega, by simpa using hgood⟩
  · intro hall
    rw [retry_create_artifact]
    have hres := h.2 ?_
    · rwa [Nat.zero_add] at hres
    · intro j hj
      have := hall j (by omega)
      rwa [Nat.zero_add]

/-- Claim C5: in create_artifact an upload byte transfer with HTTP status
200 or 204 succeeds and any other status raises the retryable failure
carrying the observed status; retry_create_artifact retries exactly that
retryable condition up to the attempt budget — it succeeds exactly when
some attempt within the budget observes 200 or 204, and when every
attempt within the budget fails it surfaces the retryable failure of the
final attempt. -/
theorem create_artifact_status_and_retry (budget : Nat) (sts : Nat → Nat)
    (hb : 1 ≤ budget) :
    (∀ s, create_artifact s = ArtifactAttempt.ok ↔ (s = 200 ∨ s = 204)) ∧
    (∀ s, ¬(s = 200 ∨ s = 204) → create_artifact s = ArtifactAttempt.retryExc s) ∧
    (retry_create_artifact budget sts = ArtifactAttempt.ok ↔
      ∃ i, i < budget ∧ (sts i = 200 ∨ sts i = 204)) ∧
    ((∀ i, i < budget → ¬(sts i = 200 ∨ sts i = 204)) →
      retry_create_artifact budget sts =
        ArtifactAttempt.retryExc (sts (budget - 1))) := by
  refine ⟨?_, ?_, (retry_create_spec budget sts hb).1, (retry_create_spec budget sts hb).2⟩
  · intro s
    by_cases hg : s = 200 ∨ s = 204
    · simp [create_artifact, hg]
    · simp [create_artifact, hg]
  · intro s hg
    simp [create_artifact, hg]

def stsW5 : Nat → Nat := fun i => if i < 2 then 500 else 204

theorem create_artifact_status_and_retry_witness :
    (1 ≤ 3) ∧ retry_create_artifact 3 stsW5 = ArtifactAttempt.ok :=
  ⟨by decide,
   (create_artifact_status_and_retry 3 stsW5 (by decide)).2.2.1.mpr
     ⟨2, by decide, Or.inr (by decide)⟩⟩

/-- A directory entry directly inside artifact_dir: its name (abstracted
to a number), whether it is a regular file, and whether its filename
begins with a dot. -/
structure DirEntry where
  name : Nat
  isRegularFile : Bool
  isHiddenName : Bool
deriving DecidableEq

/-- The semantics of glob.glob(os.path.join(artifact_dir, "*")) on a
directory listing: it returns every entry whose name does not begin with
a dot — regular file or not — and nothing from subdirectories. -/
def globStar (listing : List DirEntry) : List DirEntry :=
  listing.filter fun e => !e.isHiddenName

/-- The paths upload_artifacts collects before uploading: the glob of
artifact_dir followed by the log filenames (task.py lines 154-155). -/
def uploadFiles (listing : List DirEntry) (logFiles : List Nat) : List Nat :=
  (globStar listing).map DirEntry.name ++ logFiles

/-- Spec-words definition for claim C8, to compare with uploadFiles: every
regular file directly inside artifact_dir plus the produced log files. -/
def specUploadFiles (listing : List DirEntry) (logFiles : List Nat) : List Nat :=
  (listing.filter fun e => e.isRegularFile).map DirEntry.name ++ logFiles

/-- Claim C8 counterexample: in a directory holding one non-hidden
subdirectory (entry 0, not a regular file) and one hidden regular file
(entry 1, dotfile), upload_artifacts collects exactly the subdirectory
entry and misses the hidden regular file, so the collected set is not the
set of regular files directly inside artifact_dir. -/
theorem upload_file_set_counterexample :
    uploadFiles
        [{ name := 0, isRegularFile := false, isHiddenName := false },
         { name := 1, isRegularFile := true, isHiddenName := true }] [] = [0] ∧
    specUploadFiles
        [{ name := 0, isRegularFile := false, isHiddenName := false },
         { name := 1, isRegularFile := true, isHiddenName := true }] [] = [1] ∧
    uploadFiles
        [{ name := 0, isRegularFile := false, isHiddenName := false },
         { name := 1, isRegularFile := true, isHiddenName := true }] [] ≠
      specUploadFiles
        [{ name := 0, isRegularFile := false, isHiddenName := false },
         { name := 1, isRegularFile := true, isHiddenName := true }] [] := by
  decide

/-- Claim C8 amended: the files upload_artifacts uploads are exactly the
directory entries directly inside artifact_dir whose names do not begin
with a dot — whether or not they are regular files, with no recursion
into subdirectories — plus the produced log files. -/
theorem upload_file_set_amended (listing : List DirEntry) (logs : List Nat)
    (f : Nat) :
    f ∈ uploadFiles listing logs ↔
      (∃ e, e ∈ listing ∧ e.isHiddenName = false ∧ e.name = f) ∨ f ∈ logs := by
  rw [uploadFiles, globStar]
  simp only [List.mem_append, List.mem_map, List.mem_filter, Bool.not_eq_true']
  constructor
  · rintro (⟨e, ⟨he, hh⟩, hn⟩ | hl)
    · exact Or.inl ⟨e, he, hh, hn⟩
    · exact Or.inr hl
  · rintro (⟨e, he, hh, hn⟩ | hl)
    · exact Or.inl ⟨e, ⟨he, hh⟩, hn⟩
    · exact Or.inr hl

/-- upload_artifacts: build the file list from artifact_dir and the logs,
start one retried upload per file, and await them all jointly; the result
pairs each file with the settled outcome of its own retried upload
(task.py lines 150-159; asyncio.wait with its default ALL_COMPLETED never
cancels sibling tasks and stores each task's exception in that task). -/
def upload_artifacts (listing : List DirEntry) (logFiles : List Nat)
    (budget : Nat) (sts : Nat → Nat → Nat) : List (Nat × ArtifactAttempt) :=
  (uploadFiles listing logFiles).map fun f =>
    (f, retry_create_artifact budget (sts f))

/-- Claim C6: upload_artifacts settles every file — the awaited result has
one outcome per collected file, and each outcome is either success or the
retryable failure left after the final attempt of an exhausted budget
(with every attempt within the budget having failed).  Each file's
outcome is a function of that file's own attempt statuses alone, so one
file exhausting its retries cannot cancel or alter any sibling's
outcome. -/
theorem upload_artifacts_joint_independent (listing : List DirEntry)
    (logFiles : List Nat) (budget : Nat) (sts : Nat → Nat → Nat)
    (hb : 1 ≤ budget) :
    (upload_artifacts listing logFiles budget sts).length =
      (uploadFiles listing logFiles).length ∧
    (∀ f r, (f, r) ∈ upload_artifacts listing logFiles budget sts →
      r = retry_create_artifact budget (sts f) ∧
      (∀ sts' : Nat → Nat → Nat, sts f = sts' f →
        r = retry_create_artifact budget (sts' f)) ∧
      (r = ArtifactAttempt.ok ∨
        r = ArtifactAttempt.retryExc (sts f (budget - 1))) ∧
      (r ≠ ArtifactAttempt.ok →
        ∀ i, i < budget → ¬(sts f i = 200 ∨ sts f i = 204))) := by
  constructor
  · simp [upload_artifacts]
  · intro f r hmem
    rw [upload_artifacts, List.mem_map] at hmem
    obtain ⟨x, hx, heq⟩ := hmem
    have hf : x = f := congrArg Prod.fst heq
    have hr : r = retry_create_artifact budget (sts f) := by
      have := congrArg Prod.snd heq
      simp at this
      rw [← this, hf]
    refine ⟨hr, ?_, ?_, ?_⟩
    · intro sts' hsame
      rw [hr, hsame]
    · by_cases hgood : ∃ i, i < budget ∧ (sts f i = 200 ∨ sts f i = 204)
      · left
        rw [hr, (retry_create_spec budget (sts f) hb).1]
        exact hgood
      · right
        rw [hr]
        refine (retry_create_spec budget (sts f) hb).2 ?_
        intro i hi hgi
        exact hgood ⟨i, hi, hgi⟩
    · intro hne i hi hgi
      refine hne ?_
      rw [hr, (retry_create_spec budget (sts f) hb).1]
      exact ⟨i, hi, hgi⟩

def listingW6 : List DirEntry :=
  [{ name := 2, isRegularFile := true, isHiddenName := false }]

def stsW6 : Nat → Nat → Nat := fun f i =>
  if f = 2 then 500 else if i = 0 then 500 else 204

theorem upload_artifacts_joint_independent_witness :
    ((2, ArtifactAttempt.retryExc 500) ∈ upload_artifacts listingW6 [9] 2 stsW6) ∧
      ArtifactAttempt.retryExc 500 = retry_create_artifact 2 (stsW6 2) := by
  have hmem : (2, ArtifactAttempt.retryExc 500) ∈ upload_artifacts listingW6 [9] 2 stsW6 := by
    decide
  exact ⟨hmem,
    ((upload_artifacts_joint_independent listingW6 [9] 2 stsW6 (by decide)).2
        2 (ArtifactAttempt.retryExc 500) hmem).1⟩

/-! run_task (task.py lines 27-53). -/

/-- Timed trace of one run_task invocation.  The child is spawned at tick
0; exitTime is the tick at which the child is gone. -/
structure RunTrace where
  spawnTime : Nat
  watchdogEvents : List KEvent
  watchdogEnd : Nat
  captureStartTime : Nat
  exitcode : Int
  returnTime : Nat
  finalProc : Option Nat
deriving DecidableEq

/-- run_task: spawn the child (context.proc := the new handle, tick 0,
line 39), then at line 40 AWAIT max_timeout to completion.  Because the
call is awaited — not scheduled as a concurrent task — nothing can change
context.proc between lines 39 and 40, so the handle max_timeout compares
against is necessarily still `some pid`; the stdout/stderr capture tasks
of lines 43-45 are only created after max_timeout returns, at the
watchdog's end tick; the process's streams reach EOF no earlier than the
process's own exit, proc.wait() is awaited, the exit code recorded, and
context.proc cleared (line 52). -/
def run_task (T exitTime pid : Nat) (code : Int) : RunTrace :=
  { spawnTime := 0
    watchdogEvents := (max_timeout pid (some pid) exitTime T).events
    watchdogEnd := (max_timeout pid (some pid) exitTime T).endTime
    captureStartTime := (max_timeout pid (some pid) exitTime T).endTime
    exitcode := code
    returnTime := max (max_timeout pid (some pid) exitTime T).endTime exitTime
    finalProc := none }

/-- Claim C10: in every run_task invocation the max_timeout call is
awaited to completion before the output-capture tasks are created
(captureStartTime coincides with the watchdog's end tick), so output
capture never starts — and run_task never returns — before at least
task_max_timeout ticks have passed since the spawn at tick 0, whatever
the child's exit time, including a child that exits immediately. -/
theorem run_task_awaits_watchdog_before_capture (T exitTime pid : Nat)
    (code : Int) :
    (run_task T exitTime pid code).captureStartTime =
      (run_task T exitTime pid code).watchdogEnd ∧
    (run_task T exitTime pid code).spawnTime = 0 ∧
    T ≤ (run_task T exitTime pid code).captureStartTime ∧
    T ≤ (run_task T exitTime pid code).returnTime := by
  have hend : (max_timeout pid (some pid) exitTime T).endTime = max T exitTime := by
    unfold max_timeout
    rw [if_pos rfl]
    exact escalateTry_endTime pid exitTime exitTime initialSiglist T (by omega)
  refine ⟨rfl, rfl, ?_, ?_⟩
  · show T ≤ (max_timeout pid (some pid) exitTime T).endTime
    omega
  · show T ≤ max (max_timeout pid (some pid) exitTime T).endTime exitTime
    omega

/-- Claim C1 evaluated at the failing input task_max_timeout = 2 with a
child (pid 7) that exits immediately at tick 0: because run_task awaits
max_timeout, the watchdog runs to completion — its guard cannot fire, its
first kill raises ProcessLookupError against the long-gone process, so no
signal is ever delivered — and only then, at tick 2, are the capture
tasks created; run_task itself cannot return before tick 2.  The
watchdog therefore never overlaps the output-capture pipeline, contrary
to the claimed concurrent race. -/
theorem run_task_waits_full_timeout_on_fast_exit :
    run_task 2 0 7 0 =
      { spawnTime := 0, watchdogEvents := [], watchdogEnd := 2,
        captureStartTime := 2, exitcode := 0, returnTime := 2,
        finalProc := none } := by
  have h1 : escalateTry 7 0 initialSiglist 2 =
      { events := [], exc := some PyExc.processLookup, endTime := 2 } :=
    escalateTry_dead 7 0 initialSiglist 2 (by omega)
  have h2 : max_timeout 7 (some 7) 0 2 =
      { events := [], result := PyResult.ok, endTime := 2 } := by
    unfold max_timeout
    rw [if_pos rfl, h1]
    rfl
  unfold run_task
  rw [h2]
  rfl

end Scriptworker
